import Mathlib

/-!
Verification of the tiered-cache subsystem of the KeepUp backend (`src/app.py`).

The embedding models:
- `_cache_key` (app.py lines 72-75): SHA-256 of the normalized `title|media_type` string,
  rendered as a lowercase hex digest.  SHA-256 is implemented concretely below over `Nat`
  with explicit reduction modulo 2^32.
- `get_cached_result` (lines 77-110): read path over the two tiers.
- `set_cached_result` (lines 112-138): write path with status-dependent durable retention.
- `derive_composite`: the composite key deriver, modelled from the spec (see its doc comment).

Python values that the cache stores are modelled by the `Json` inductive (a spine encoding
of JSON, so that decidable equality is derivable).  `Json.null` plays the role of Python's
`None`: `get_cached_result` returns `None` both on a miss and when the stored payload is
`None`, and the model mirrors this conflation faithfully.

The Redis tier is modelled as an association list from keys to entries carrying the stored
payload and the absolute expiry instant (`set` with `ex=DEFAULT_CACHE_TTL_SECONDS` stores
`now + TTL`; `get` at time `t` sees the entry iff `t` is before that instant).  The MongoDB
tier is an association list from `_id` keys to documents whose `data` and `expiry_time`
fields may each be absent, since `document.get("expiry_time", 0)` defaults a missing field
to `0` and `document["data"]` raises `KeyError` on a missing field (swallowed by the
tier-level `except`).  A tier whose connection failed at startup (`r is None`,
`db_collection is None`) is modelled by the corresponding `Option` state being `none`.

Within a single call, the several `time.time()` readings are modelled by one `now`
parameter.  `json.dumps`/`json.loads` round-trip on the `Json` AST, so the Redis value is
stored as the AST itself; `json.dumps` never yields an empty string, so Python's truthiness
test `if json_data:` coincides with the `Option` match used here.
-/

set_option maxRecDepth 1000000

/-! ## SHA-256 over `Nat`, words reduced modulo 2^32 -/

def w32 (n : Nat) : Nat := n % 4294967296

def rotr32 (r x : Nat) : Nat := w32 ((x >>> r) ||| (x <<< (32 - r)))

def bigSigma0 (x : Nat) : Nat := (rotr32 2 x) ^^^ (rotr32 13 x) ^^^ (rotr32 22 x)

def bigSigma1 (x : Nat) : Nat := (rotr32 6 x) ^^^ (rotr32 11 x) ^^^ (rotr32 25 x)

def smallSigma0 (x : Nat) : Nat := (rotr32 7 x) ^^^ (rotr32 18 x) ^^^ (x >>> 3)

def smallSigma1 (x : Nat) : Nat := (rotr32 17 x) ^^^ (rotr32 19 x) ^^^ (x >>> 10)

def chF (x y z : Nat) : Nat := (x &&& y) ^^^ ((x ^^^ 4294967295) &&& z)

def majF (x y z : Nat) : Nat := (x &&& y) ^^^ (x &&& z) ^^^ (y &&& z)

def sha256K : List Nat :=
  [1116352408, 1899447441, 3049323471, 3921009573, 961987163, 1508970993,
   2453635748, 2870763221, 3624381080, 310598401, 607225278, 1426881987,
   1925078388, 2162078206, 2614888103, 3248222580, 3835390401, 4022224774,
   264347078, 604807628, 770255983, 1249150122, 1555081692, 1996064986,
   2554220882, 2821834349, 2952996808, 3210313671, 3336571891, 3584528711,
   113926993, 338241895, 666307205, 773529912, 1294757372, 1396182291,
   1695183700, 1986661051, 2177026350, 2456956037, 2730485921, 2820302411,
   3259730800, 3345764771, 3516065817, 3600352804, 4094571909, 275423344,
   430227734, 506948616, 659060556, 883997877, 958139571, 1322822218,
   1537002063, 1747873779, 1955562222, 2024104815, 2227730452, 2361852424,
   2428436474, 2756734187, 3204031479, 3329325298]

structure Hash8 where
  a : Nat
  b : Nat
  c : Nat
  d : Nat
  e : Nat
  f : Nat
  g : Nat
  hv : Nat

def sha256H0 : Hash8 :=
  ⟨1779033703, 3144134277, 1013904242, 2773480762, 1359893119, 2600822924, 528734635, 1541459225⟩

def sha256Schedule (block : List Nat) : List Nat :=
  (List.range 48).foldl
    (fun ws j =>
      let i := j + 16
      let w := w32 (smallSigma1 (ws.getD (i - 2) 0) + ws.getD (i - 7) 0 +
                    smallSigma0 (ws.getD (i - 15) 0) + ws.getD (i - 16) 0)
      ws.concat w)
    block

def sha256Round (k w : Nat) (s : Hash8) : Hash8 :=
  let t1 := w32 (s.hv + bigSigma1 s.e + chF s.e s.f s.g + k + w)
  let t2 := w32 (bigSigma0 s.a + majF s.a s.b s.c)
  ⟨w32 (t1 + t2), s.a, s.b, s.c, w32 (s.d + t1), s.e, s.f, s.g⟩

def sha256Compress (s : Hash8) (block : List Nat) : Hash8 :=
  let ws := sha256Schedule block
  let t := (List.range 64).foldl (fun t i => sha256Round (sha256K.getD i 0) (ws.getD i 0) t) s
  ⟨w32 (s.a + t.a), w32 (s.b + t.b), w32 (s.c + t.c), w32 (s.d + t.d),
   w32 (s.e + t.e), w32 (s.f + t.f), w32 (s.g + t.g), w32 (s.hv + t.hv)⟩

def beBytes (k n : Nat) : List Nat :=
  (List.range k).map (fun i => (n >>> (8 * (k - 1 - i))) % 256)

def padMessage (msg : List Nat) : List Nat :=
  let L := msg.length
  let z := (64 + 56 - (L + 1) % 64) % 64
  msg ++ [0x80] ++ List.replicate z 0 ++ beBytes 8 (8 * L)

def bytesToWords : List Nat → List Nat
  | b0 :: b1 :: b2 :: b3 :: rest => (((b0 * 256 + b1) * 256 + b2) * 256 + b3) :: bytesToWords rest
  | _ => []

def chunkWordsAux : Nat → List Nat → List (List Nat)
  | 0, _ => []
  | fuel + 1, ws => if ws = [] then [] else ws.take 16 :: chunkWordsAux fuel (ws.drop 16)

def chunkWords (ws : List Nat) : List (List Nat) := chunkWordsAux ws.length ws

def sha256Hash (msg : List Nat) : Hash8 :=
  (chunkWords (bytesToWords (padMessage msg))).foldl sha256Compress sha256H0

def hexChar (n : Nat) : Char :=
  if n < 10 then Char.ofNat (48 + n) else Char.ofNat (87 + n)

def wordHex (n : Nat) : String :=
  String.mk ((List.range 8).map (fun i => hexChar ((n >>> (4 * (7 - i))) % 16)))

def hexDigest (s : Hash8) : String :=
  wordHex s.a ++ wordHex s.b ++ wordHex s.c ++ wordHex s.d ++
  wordHex s.e ++ wordHex s.f ++ wordHex s.g ++ wordHex s.hv

/-- The lowercase hex SHA-256 digest of a byte sequence, as `hashlib.sha256(...).hexdigest()`. -/
def sha256hex (msg : List Nat) : String := hexDigest (sha256Hash msg)

/-! ## Python string primitives used by the source -/

/-- Python `str.lower()` on the ASCII range (the range exercised by the repository). -/
def pyLowerChar (c : Char) : Char :=
  if 65 ≤ c.toNat ∧ c.toNat ≤ 90 then Char.ofNat (c.toNat + 32) else c

def pyLower (s : String) : String := String.mk (s.data.map pyLowerChar)

/-- Python whitespace as recognized by `str.strip()` (space, tab, LF, CR, VT, FF). -/
def pyIsSpace (c : Char) : Bool :=
  c.toNat = 32 || c.toNat = 9 || c.toNat = 10 || c.toNat = 13 || c.toNat = 11 || c.toNat = 12

/-- Python `str.strip()`: drop leading and trailing whitespace. -/
def pyStrip (s : String) : String :=
  String.mk (((s.data.dropWhile pyIsSpace).reverse.dropWhile pyIsSpace).reverse)

/-- UTF-8 encoding of a code point, as Python `str.encode()`. -/
def utf8Bytes (c : Nat) : List Nat :=
  if c < 0x80 then [c]
  else if c < 0x800 then [0xC0 + c / 64, 0x80 + c % 64]
  else if c < 0x10000 then [0xE0 + c / 4096, 0x80 + (c / 64) % 64, 0x80 + c % 64]
  else [0xF0 + c / 262144, 0x80 + (c / 4096) % 64, 0x80 + (c / 64) % 64, 0x80 + c % 64]

def strBytes (s : String) : List Nat := (s.data.map (fun c => utf8Bytes c.toNat)).flatten

/-! ## JSON-like Python values

A spine encoding of JSON (arrays and objects carry their elements through dedicated
cons constructors) so that `DecidableEq` is derivable.  `Json.null` is Python `None`. -/

inductive Json where
  | null
  | bool (b : Bool)
  | num (n : Int)
  | str (s : String)
  | arrNil
  | arrCons (hd : Json) (tl : Json)
  | objNil
  | objCons (k : String) (v : Json) (tl : Json)
  deriving DecidableEq, Repr

/-! ## Key derivation -/

/-- app.py 72-75: `raw = f"{title.lower().strip()}|{media_type}"`,
`hashlib.sha256(raw.encode()).hexdigest()`. -/
def _cache_key (title : String) (media_type : String) : String :=
  sha256hex (strBytes (pyStrip (pyLower title) ++ "|" ++ media_type))

/-- An item of a composite lookup, per the spec's `{title}` shape. -/
structure Item where
  title : String
  deriving DecidableEq, Repr

/-- Modelled from the spec: `derive_composite(items, reference_date)` is declared in the
spec (section 4.1) but its source is not under `src/` (only `_cache_key` is).  Per the
spec's words: normalize case and surrounding whitespace on each title, sort the items by
title so input order never affects the key, join with a delimiter together with the
reference date, and hash with the same 256-bit digest rendered as hex. -/
def derive_composite (items : List Item) (reference_date : String) : String :=
  let titles := items.map (fun it => pyStrip (pyLower it.title))
  let sorted := List.insertionSort (fun a b : String => a ≤ b) titles
  sha256hex (strBytes (String.intercalate "|" sorted ++ "|" ++ reference_date))

/-! ## The two cache tiers -/

/-- A live Redis entry: the stored payload (via `json.dumps`, which round-trips on the
AST) and the absolute instant at which the key expires (`set` time + `ex` seconds). -/
structure RedisEntry where
  value : Json
  expiresAt : Int
  deriving DecidableEq, Repr

/-- A MongoDB document for the `ai_status` collection, keyed by `_id` in the store.
Either field may be absent from the underlying dict. -/
structure MongoDoc where
  data : Option Json
  expiry_time : Option Int
  deriving DecidableEq, Repr

/-- The process-wide connection state: `redis = none` models `r is None` (connection
failed at startup), `mongo = none` models `db_collection is None`. -/
structure CacheState where
  redis : Option (List (String × RedisEntry))
  mongo : Option (List (String × MongoDoc))
  deriving DecidableEq, Repr

def assocFind {α : Type} (l : List (String × α)) (key : String) : Option α :=
  match l with
  | [] => none
  | (k, v) :: rest => if k = key then some v else assocFind rest key

def assocSet {α : Type} (l : List (String × α)) (key : String) (v : α) : List (String × α) :=
  match l with
  | [] => [(key, v)]
  | (k, w) :: rest => if k = key then (key, v) :: rest else (k, w) :: assocSet rest key v

def assocErase {α : Type} (l : List (String × α)) (key : String) : List (String × α) :=
  match l with
  | [] => []
  | (k, w) :: rest => if k = key then rest else (k, w) :: assocErase rest key

/-- `r.get(key)` at instant `now` against an optionally-available Redis: `none` when the
tier is down, the key is absent, or the entry's TTL has elapsed. -/
def redisLookup (now : Int) (redis : Option (List (String × RedisEntry))) (key : String) :
    Option Json :=
  match redis with
  | none => none
  | some m =>
    match assocFind m key with
    | none => none
    | some entry => if now < entry.expiresAt then some entry.value else none

/-- app.py 61: `DEFAULT_CACHE_TTL_SECONDS = 60 * 60 * 12`. -/
def DEFAULT_CACHE_TTL_SECONDS : Int := 60 * 60 * 12

/-- app.py 62: `PERMANENT_STATUSES = ["cancelled", "concluded", "ended"]`. -/
def PERMANENT_STATUSES : List String := ["cancelled", "concluded", "ended"]

/-- app.py 126: `60 * 60 * 24 * 365 * 100` seconds, the "100 years" durable retention. -/
def PERMANENT_RETENTION_SECONDS : Int := 60 * 60 * 24 * 365 * 100

/-- app.py 112-138, `set_cached_result(key, data, status)` with a string status:
always write Redis (when available) with the fixed TTL; write MongoDB (when available)
with `expiry_time = now + 100 years` only if `status.lower()` is a permanent status. -/
def set_cached_result_str (now : Int) (st : CacheState) (key : String) (data : Json)
    (status : String) : CacheState :=
  let status_lower := pyLower status
  let st1 : CacheState :=
    match st.redis with
    | none => st
    | some m =>
      { st with redis := some (assocSet m key
          { value := data, expiresAt := now + DEFAULT_CACHE_TTL_SECONDS }) }
  if status_lower ∈ PERMANENT_STATUSES then
    match st1.mongo with
    | none => st1
    | some m =>
      { st1 with mongo := some (assocSet m key
          { data := some data, expiry_time := some (now + PERMANENT_RETENTION_SECONDS) }) }
  else st1

/-- `set_cached_result` as invoked with a possibly-absent classification.  `status` is a
required `str` parameter in the source; a call that supplies `None` (or omits the
argument, raising `TypeError` even earlier) hits `status.lower()` on line 113 — outside
every `try` block — and raises to the caller before either tier is written. -/
def set_cached_result (now : Int) (st : CacheState) (key : String) (data : Json)
    (status : Option String) : Except Unit CacheState :=
  match status with
  | none => Except.error ()
  | some s => Except.ok (set_cached_result_str now st key data s)

/-- app.py 77-110, `get_cached_result(key)`.  Tier 1: Redis hit returns the parsed
payload.  Tier 2: on a document, a still-valid `expiry_time` (missing defaults to `0`)
warms Redis through the write path with status `"WARM"` (only when `r is not None`) and
returns `document["data"]`; a missing `data` field raises `KeyError`, swallowed by the
tier-level `except`, falling through to a plain miss; an expired document is deleted.
Python returns `None` both on a miss and for a stored `None` payload, so the result is
`Json` with `Json.null` as the absent value. -/
def get_cached_result (now : Int) (st : CacheState) (key : String) : Json × CacheState :=
  match redisLookup now st.redis key with
  | some v => (v, st)
  | none =>
    match st.mongo with
    | none => (Json.null, st)
    | some m =>
      match assocFind m key with
      | none => (Json.null, st)
      | some document =>
        if now < document.expiry_time.getD 0 then
          match document.data with
          | none => (Json.null, st)
          | some d =>
            (d, if st.redis.isSome then set_cached_result_str now st key d "WARM" else st)
        else
          (Json.null, { st with mongo := some (assocErase m key) })

/-! ## Association-list lemmas -/

theorem assocFind_assocSet_self {α : Type} (l : List (String × α)) (key : String) (v : α) :
    assocFind (assocSet l key v) key = some v := by
  induction l with
  | nil => simp [assocSet, assocFind]
  | cons p rest ih =>
    obtain ⟨k, w⟩ := p
    by_cases h : k = key <;> simp [assocSet, assocFind, h, ih]

theorem assocFind_assocErase_ne {α : Type} (l : List (String × α)) (key k2 : String)
    (h : k2 ≠ key) : assocFind (assocErase l key) k2 = assocFind l k2 := by
  induction l with
  | nil => rfl
  | cons p rest ih =>
    obtain ⟨k, w⟩ := p
    by_cases hk : k = key
    · have hk2 : ¬ k = k2 := fun e => h (e.symm.trans hk)
      have hkey2 : ¬ key = k2 := fun e => h e.symm
      simp [assocErase, assocFind, hk, hk2, hkey2]
    · simp [assocErase, assocFind, hk, ih]

theorem redisLookup_assocSet_self (now t : Int) (rm : List (String × RedisEntry))
    (key : String) (v : Json) (h : now < t) :
    redisLookup now (some (assocSet rm key ⟨v, t⟩)) key = some v := by
  simp [redisLookup, assocFind_assocSet_self, h]

/-! ## Claim theorems -/

/-- C1: for every key, payload and classification string, `set_cached_result` writes the
payload to the fast tier with the fixed 12-hour TTL regardless of classification, and
writes the durable tier with `expiry_time = now + 100 years` exactly when the
classification, lower-cased, is one of the terminal labels `cancelled`, `concluded`,
`ended`; for every other classification the durable tier is left entirely unchanged. -/
theorem populate_write_path (now : Int) (rm : List (String × RedisEntry))
    (mm : List (String × MongoDoc)) (key : String) (v : Json) (status : String) :
    set_cached_result_str now ⟨some rm, some mm⟩ key v status =
      ⟨some (assocSet rm key ⟨v, now + DEFAULT_CACHE_TTL_SECONDS⟩),
       if pyLower status ∈ PERMANENT_STATUSES then
         some (assocSet mm key ⟨some v, some (now + PERMANENT_RETENTION_SECONDS)⟩)
       else some mm⟩ ∧
    DEFAULT_CACHE_TTL_SECONDS = 60 * 60 * 12 ∧
    PERMANENT_STATUSES = ["cancelled", "concluded", "ended"] := by
  refine ⟨?_, rfl, rfl⟩
  by_cases h : pyLower status ∈ PERMANENT_STATUSES <;>
    simp [set_cached_result_str, h]

/-- C4: `populate(k, v, "unknown")` followed by `lookup(k)` before the fast-tier TTL has
elapsed returns `v`, round-tripping through the fast tier's JSON serialization. -/
theorem populate_lookup_roundtrip (t0 t1 : Int) (rm : List (String × RedisEntry))
    (mt : Option (List (String × MongoDoc))) (key : String) (v : Json)
    (h : t1 < t0 + DEFAULT_CACHE_TTL_SECONDS) :
    (get_cached_result t1 (set_cached_result_str t0 ⟨some rm, mt⟩ key v "unknown") key).1 = v := by
  have hu : pyLower "unknown" ∉ PERMANENT_STATUSES := by decide
  simp [set_cached_result_str, hu, get_cached_result, redisLookup, assocFind_assocSet_self, h]

/-- Witness for C4 at a concrete input. -/
theorem populate_lookup_roundtrip_witness :
    (get_cached_result 1
      (set_cached_result_str 0 ⟨some [], some []⟩ "k" (Json.str "p") "unknown") "k").1 =
      Json.str "p" :=
  populate_lookup_roundtrip 0 1 [] (some []) "k" (Json.str "p") (by decide)

/-- C5: key derivation is deterministic and insensitive to the normalization of the
subject (any two titles equal after lower-casing and stripping collide, in particular
`"The Bear"` and `" the bear "`), and distinguishes the media-type discriminator:
`derive("X", "tv") ≠ derive("X", "movie")`. -/
theorem cache_key_normalization :
    (∀ t1 t2 m, pyStrip (pyLower t1) = pyStrip (pyLower t2) →
      _cache_key t1 m = _cache_key t2 m) ∧
    _cache_key "The Bear" "tv" = _cache_key " the bear " "tv" ∧
    _cache_key "X" "tv" ≠ _cache_key "X" "movie" := by
  refine ⟨?_, by decide, by decide⟩
  intro t1 t2 m h
  unfold _cache_key
  rw [h]

/-- Witness for C5's quantified conjunct at a concrete input. -/
theorem cache_key_normalization_witness :
    _cache_key "A " "tv" = _cache_key " a" "tv" :=
  cache_key_normalization.1 "A " " a" "tv" (by decide)

/-- C2: when the fast tier misses on a key whose durable document exists, carries a
payload, and is still valid (`expiry_time` in the future), `get_cached_result` returns
the stored payload, the fast tier afterwards holds that payload (warming), and — because
the warming write uses the neutral classification `"WARM"` — the durable tier is not
written. -/
theorem lookup_durable_hit_warms (now : Int) (rm : List (String × RedisEntry))
    (mm : List (String × MongoDoc)) (key : String) (document : MongoDoc) (v : Json)
    (e : Int)
    (hfast : redisLookup now (some rm) key = none)
    (hdoc : assocFind mm key = some document)
    (hdata : document.data = some v)
    (hexp : document.expiry_time = some e)
    (hvalid : now < e) :
    (get_cached_result now ⟨some rm, some mm⟩ key).1 = v ∧
    (get_cached_result now ⟨some rm, some mm⟩ key).2.mongo = some mm ∧
    redisLookup now (get_cached_result now ⟨some rm, some mm⟩ key).2.redis key = some v := by
  have hw : pyLower "WARM" ∉ PERMANENT_STATUSES := by decide
  have httl : DEFAULT_CACHE_TTL_SECONDS = 43200 := rfl
  have hlt : now < now + DEFAULT_CACHE_TTL_SECONDS := by omega
  have hres : get_cached_result now ⟨some rm, some mm⟩ key =
      (v, ⟨some (assocSet rm key ⟨v, now + DEFAULT_CACHE_TTL_SECONDS⟩), some mm⟩) := by
    simp [get_cached_result, hfast, hdoc, hdata, hexp, hvalid, set_cached_result_str, hw]
  rw [hres]
  exact ⟨rfl, rfl, by simp [redisLookup, assocFind_assocSet_self, hlt]⟩

/-- Witness for C2 at a concrete input. -/
theorem lookup_durable_hit_warms_witness :
    (get_cached_result 5 ⟨some [], some [("k", ⟨some (Json.str "p"), some 10⟩)]⟩ "k").1 =
      Json.str "p" ∧
    (get_cached_result 5 ⟨some [], some [("k", ⟨some (Json.str "p"), some 10⟩)]⟩ "k").2.mongo =
      some [("k", ⟨some (Json.str "p"), some 10⟩)] ∧
    redisLookup 5
      (get_cached_result 5 ⟨some [], some [("k", ⟨some (Json.str "p"), some 10⟩)]⟩ "k").2.redis
      "k" = some (Json.str "p") :=
  lookup_durable_hit_warms 5 [] [("k", ⟨some (Json.str "p"), some 10⟩)] "k"
    ⟨some (Json.str "p"), some 10⟩ (Json.str "p") 10 rfl rfl rfl rfl (by decide)

/-- C3: when the fast tier misses on a key whose durable document exists but whose
`expiry_time` has passed, `get_cached_result` returns absent and deletes exactly that
document from the durable tier; every other key's durable entry is untouched. -/
theorem lookup_expired_durable_deletes (now : Int)
    (rt : Option (List (String × RedisEntry))) (mm : List (String × MongoDoc))
    (key : String) (document : MongoDoc) (e : Int) (k2 : String)
    (hfast : redisLookup now rt key = none)
    (hdoc : assocFind mm key = some document)
    (hexp : document.expiry_time = some e)
    (hpast : e ≤ now)
    (hk2 : k2 ≠ key) :
    get_cached_result now ⟨rt, some mm⟩ key = (Json.null, ⟨rt, some (assocErase mm key)⟩) ∧
    assocFind (assocErase mm key) k2 = assocFind mm k2 := by
  have hnv : ¬ now < e := not_lt.mpr hpast
  exact ⟨by simp [get_cached_result, hfast, hdoc, hexp, hnv],
         assocFind_assocErase_ne mm key k2 hk2⟩

/-- Witness for C3 at a concrete input. -/
theorem lookup_expired_durable_deletes_witness :
    get_cached_result 9 ⟨none, some [("k", ⟨some (Json.str "p"), some 4⟩)]⟩ "k" =
      (Json.null, ⟨none, some (assocErase [("k", ⟨some (Json.str "p"), some 4⟩)] "k")⟩) ∧
    assocFind (assocErase [("k", (⟨some (Json.str "p"), some 4⟩ : MongoDoc))] "k") "x" =
      assocFind [("k", (⟨some (Json.str "p"), some 4⟩ : MongoDoc))] "x" :=
  lookup_expired_durable_deletes 9 none [("k", ⟨some (Json.str "p"), some 4⟩)] "k"
    ⟨some (Json.str "p"), some 4⟩ 4 "x" rfl rfl rfl (by decide) (by decide)

/-- C9: a durable document lacking the `expiry_time` field is treated as already expired
(the missing field defaults to `0`, and the clock is nonnegative): on a fast-tier miss,
`get_cached_result` returns absent and deletes the document. -/
theorem lookup_missing_expiry_expired (now : Int)
    (rt : Option (List (String × RedisEntry))) (mm : List (String × MongoDoc))
    (key : String) (document : MongoDoc)
    (hnow : 0 ≤ now)
    (hfast : redisLookup now rt key = none)
    (hdoc : assocFind mm key = some document)
    (hexp : document.expiry_time = none) :
    get_cached_result now ⟨rt, some mm⟩ key = (Json.null, ⟨rt, some (assocErase mm key)⟩) := by
  have hnv : ¬ now < (0 : Int) := not_lt.mpr hnow
  simp [get_cached_result, hfast, hdoc, hexp, hnv]

/-- Witness for C9 at a concrete input. -/
theorem lookup_missing_expiry_expired_witness :
    get_cached_result 7 ⟨none, some [("k", ⟨some (Json.str "p"), none⟩)]⟩ "k" =
      (Json.null, ⟨none, some (assocErase [("k", ⟨some (Json.str "p"), none⟩)] "k")⟩) :=
  lookup_missing_expiry_expired 7 none [("k", ⟨some (Json.str "p"), none⟩)] "k"
    ⟨some (Json.str "p"), none⟩ (by decide) rfl rfl rfl

/-- C10: a durable document that is still valid but lacks the `data` field produces a
plain miss: the `KeyError` is swallowed by the tier-level handler, nothing is raised to
the caller, and the state is unchanged — the document is neither warmed into the fast
tier nor deleted. -/
theorem lookup_missing_data_plain_miss (now : Int) (st : CacheState)
    (mm : List (String × MongoDoc)) (key : String) (document : MongoDoc)
    (hfast : redisLookup now st.redis key = none)
    (hmongo : st.mongo = some mm)
    (hdoc : assocFind mm key = some document)
    (hdata : document.data = none)
    (hvalid : now < document.expiry_time.getD 0) :
    get_cached_result now st key = (Json.null, st) := by
  simp [get_cached_result, hfast, hmongo, hdoc, hdata, hvalid]

/-- Witness for C10 at a concrete input. -/
theorem lookup_missing_data_plain_miss_witness :
    get_cached_result 3 ⟨some [], some [("k", ⟨none, some 10⟩)]⟩ "k" =
      (Json.null, ⟨some [], some [("k", ⟨none, some 10⟩)]⟩) :=
  lookup_missing_data_plain_miss 3 ⟨some [], some [("k", ⟨none, some 10⟩)]⟩
    [("k", ⟨none, some 10⟩)] "k" ⟨none, some 10⟩ rfl rfl rfl rfl (by decide)

/-- C6: graceful degradation. With the fast tier unavailable, populate and lookup still
work end-to-end through the durable tier; with the durable tier unavailable, they work
through the fast tier (for any classification); with both unavailable, lookup returns
absent with no state change and populate is an error-free no-op; and populate with any
string classification never raises (it always produces a result state). -/
theorem tier_degradation :
    (∀ (t0 t1 : Int) (mm : List (String × MongoDoc)) (key : String) (v : Json),
        t1 < t0 + PERMANENT_RETENTION_SECONDS →
        (get_cached_result t1
          (set_cached_result_str t0 ⟨none, some mm⟩ key v "Cancelled") key).1 = v) ∧
    (∀ (t0 t1 : Int) (rm : List (String × RedisEntry)) (key : String) (v : Json)
        (s : String),
        t1 < t0 + DEFAULT_CACHE_TTL_SECONDS →
        (get_cached_result t1
          (set_cached_result_str t0 ⟨some rm, none⟩ key v s) key).1 = v) ∧
    (∀ (now : Int) (key : String),
        get_cached_result now ⟨none, none⟩ key = (Json.null, ⟨none, none⟩)) ∧
    (∀ (now : Int) (st : CacheState) (key : String) (v : Json) (s : String),
        set_cached_result now st key v (some s) =
          Except.ok (set_cached_result_str now st key v s)) := by
  refine ⟨?_, ?_, fun _ _ => rfl, fun _ _ _ _ _ => rfl⟩
  · intro t0 t1 mm key v h
    have hc : pyLower "Cancelled" ∈ PERMANENT_STATUSES := by decide
    simp [set_cached_result_str, hc, get_cached_result, redisLookup,
          assocFind_assocSet_self, h]
  · intro t0 t1 rm key v s h
    by_cases hs : pyLower s ∈ PERMANENT_STATUSES <;>
      simp [set_cached_result_str, hs, get_cached_result, redisLookup,
            assocFind_assocSet_self, h]

/-- Witness for C6 at concrete inputs: fast tier down and durable tier down. -/
theorem tier_degradation_witness :
    (get_cached_result 1
      (set_cached_result_str 0 ⟨none, some []⟩ "k" (Json.str "v") "Cancelled") "k").1 =
      Json.str "v" ∧
    (get_cached_result 1
      (set_cached_result_str 0 ⟨some [], none⟩ "k" (Json.str "v") "Renewed") "k").1 =
      Json.str "v" :=
  ⟨tier_degradation.1 0 1 [] "k" (Json.str "v") (by decide),
   tier_degradation.2.1 0 1 [] "k" (Json.str "v") "Renewed" (by decide)⟩

/-- C7 counterexample: populate invoked with the classification absent raises to the
caller (the `status.lower()` on app.py line 113 sits outside every `try` block, and
omitting the required positional argument raises `TypeError` even earlier), so no tier is
written and the call does not return without error as the claim states. -/
theorem populate_absent_classification_raises :
    set_cached_result 0 ⟨some [], some []⟩ "k" (Json.str "v") none = Except.error () :=
  rfl

/-- C7 (amended): with the classification absent, populate raises before writing either
tier; with any supplied non-terminal classification string (such as `"unknown"` or the
empty string) the fast tier is written with the fixed TTL, the durable tier is left
unchanged, and no error is raised to the caller. -/
theorem populate_classification_handling (now : Int) (rm : List (String × RedisEntry))
    (mm : List (String × MongoDoc)) (st2 : CacheState) (key : String) (v : Json)
    (s : String)
    (hs : pyLower s ∉ PERMANENT_STATUSES) :
    set_cached_result now ⟨some rm, some mm⟩ key v (some s) =
      Except.ok ⟨some (assocSet rm key ⟨v, now + DEFAULT_CACHE_TTL_SECONDS⟩), some mm⟩ ∧
    set_cached_result now st2 key v none = Except.error () := by
  refine ⟨?_, rfl⟩
  simp [set_cached_result, set_cached_result_str, hs]

/-- Witness for C7's amended theorem at a concrete input. -/
theorem populate_classification_handling_witness :
    set_cached_result 0 ⟨some [], some []⟩ "k" (Json.str "v") (some "") =
      Except.ok ⟨some (assocSet [] "k" ⟨Json.str "v", 0 + DEFAULT_CACHE_TTL_SECONDS⟩),
                 some []⟩ ∧
    set_cached_result 0 ⟨none, none⟩ "k" (Json.str "v") none = Except.error () :=
  populate_classification_handling 0 [] [] ⟨none, none⟩ "k" (Json.str "v") "" (by decide)

/-- C8: composite key derivation is order-independent — deriving over any permutation of
the items with the same reference date yields the same key, because the normalized titles
are sorted before concatenation. -/
theorem derive_composite_order_independent (l1 l2 : List Item) (reference_date : String)
    (h : l1.Perm l2) :
    derive_composite l1 reference_date = derive_composite l2 reference_date := by
  have hperm : (l1.map (fun it => pyStrip (pyLower it.title))).Perm
      (l2.map (fun it => pyStrip (pyLower it.title))) := h.map _
  have hsorteq :
      List.insertionSort (fun a b : String => a ≤ b)
          (l1.map (fun it => pyStrip (pyLower it.title))) =
        List.insertionSort (fun a b : String => a ≤ b)
          (l2.map (fun it => pyStrip (pyLower it.title))) :=
    List.eq_of_perm_of_sorted
      (((List.perm_insertionSort _ _).trans hperm).trans
        (List.perm_insertionSort _ _).symm)
      (List.sorted_insertionSort _ _) (List.sorted_insertionSort _ _)
  simp only [derive_composite, hsorteq]

/-- Witness for C8 at a concrete input. -/
theorem derive_composite_order_independent_witness :
    derive_composite [⟨"B"⟩, ⟨"A"⟩] "D" = derive_composite [⟨"A"⟩, ⟨"B"⟩] "D" :=
  derive_composite_order_independent [⟨"B"⟩, ⟨"A"⟩] [⟨"A"⟩, ⟨"B"⟩] "D" (by decide)
